import Mathlib

/-!
Shallow embedding of `akson-cli` (`src/main.py`): an interactive chat CLI
with a foreground input loop (`chat_loop`), a background server-push event
stream reader (`stream_events`), and a session driver (`main_async`) that
orchestrates startup, the two concurrent tasks, cancellation and shutdown.

Terminal output is modelled as the exact strings written by each `print`
call (Python `print(s)` writes `s ++ "\n"`; `print(s, end="")` writes `s`).
-/

namespace Akson

/-- Characters written via code points to keep the development ASCII-clean. -/
def quoteChar : Char := Char.ofNat 34

def squoteChar : Char := Char.ofNat 39

def lbraceChar : Char := Char.ofNat 123

def rbraceChar : Char := Char.ofNat 125

def backslashChar : Char := Char.ofNat 92

def nlChar : Char := Char.ofNat 10

def tabChar : Char := Char.ofNat 9

def crChar : Char := Char.ofNat 13

/-- JSON values as produced by Python's `json.loads`.  Numbers keep their
source token (the client never inspects numeric payloads).  Object fields
keep all key/value pairs in source order; lookup takes the last binding,
matching Python dict construction order semantics. -/
inductive Json where
  | null : Json
  | bool (b : Bool) : Json
  | num (raw : String) : Json
  | str (s : String) : Json
  | arr (elems : List Json) : Json
  | obj (fields : List (String × Json)) : Json
deriving Repr

/-- Last binding of a key in a JSON object's field list (Python dicts keep
the last duplicate key). -/
def lookupLast (fields : List (String × Json)) (k : String) : Option Json :=
  match fields with
  | [] => none
  | (k2, v) :: rest =>
    match lookupLast rest k with
    | some v2 => some v2
    | none => if k2 = k then some v else none

def isJsonWs (c : Char) : Bool :=
  c = ' ' || c = tabChar || c = nlChar || c = crChar

def skipWs (cs : List Char) : List Char :=
  match cs with
  | [] => []
  | c :: rest => if isJsonWs c then skipWs rest else c :: rest

def isHexDigit (c : Char) : Bool :=
  c.isDigit || (c ≥ 'a' && c ≤ 'f') || (c ≥ 'A' && c ≤ 'F')

def hexVal (c : Char) : Nat :=
  if c.isDigit then c.toNat - '0'.toNat
  else if c ≥ 'a' && c ≤ 'f' then c.toNat - 'a'.toNat + 10
  else c.toNat - 'A'.toNat + 10

/-- Parse the body of a JSON string literal (after the opening quote),
returning the decoded characters and the rest after the closing quote. -/
def parseStrBody (fuel : Nat) (cs : List Char) : Option (List Char × List Char) :=
  match fuel, cs with
  | 0, _ => none
  | _, [] => none
  | fuel + 1, c :: rest =>
    if c = quoteChar then some ([], rest)
    else if c = backslashChar then
      match rest with
      | [] => none
      | e :: rest2 =>
        if e = 'u' then
          match rest2 with
          | h1 :: h2 :: h3 :: h4 :: rest3 =>
            if isHexDigit h1 && isHexDigit h2 && isHexDigit h3 && isHexDigit h4 then
              match parseStrBody fuel rest3 with
              | some (tail, rem) =>
                some (Char.ofNat
                  (((hexVal h1 * 16 + hexVal h2) * 16 + hexVal h3) * 16 + hexVal h4)
                  :: tail, rem)
              | none => none
            else none
          | _ => none
        else
          let dec : Option Char :=
            if e = quoteChar then some quoteChar
            else if e = backslashChar then some backslashChar
            else if e = '/' then some '/'
            else if e = 'b' then some (Char.ofNat 8)
            else if e = 'f' then some (Char.ofNat 12)
            else if e = 'n' then some nlChar
            else if e = 'r' then some crChar
            else if e = 't' then some tabChar
            else none
          match dec with
          | none => none
          | some d =>
            match parseStrBody fuel rest2 with
            | some (tail, rem) => some (d :: tail, rem)
            | none => none
    else
      match parseStrBody fuel rest with
      | some (tail, rem) => some (c :: tail, rem)
      | none => none

def isNumChar (c : Char) : Bool :=
  c.isDigit || c = '-' || c = '+' || c = '.' || c = 'e' || c = 'E'

def takeNum (cs : List Char) : List Char × List Char :=
  match cs with
  | [] => ([], [])
  | c :: rest =>
    if isNumChar c then
      let (tok, rem) := takeNum rest
      (c :: tok, rem)
    else ([], c :: rest)

/-- Check that a list of characters starts with the given word, returning
the remainder. -/
def stripWord (w : List Char) (cs : List Char) : Option (List Char) :=
  match w, cs with
  | [], rest => some rest
  | x :: w2, c :: rest => if c = x then stripWord w2 rest else none
  | _ :: _, [] => none

mutual

/-- Recursive-descent JSON value parser (fuel-indexed model of the grammar
accepted by Python's `json.loads`). -/
def parseVal (fuel : Nat) (cs : List Char) : Option (Json × List Char) :=
  match fuel with
  | 0 => none
  | fuel + 1 =>
    match skipWs cs with
    | [] => none
    | c :: rest =>
      if c = lbraceChar then parseObjFields fuel (skipWs rest) true
      else if c = '[' then parseArrElems fuel (skipWs rest) true
      else if c = quoteChar then
        match parseStrBody (rest.length + 1) rest with
        | some (body, rem) => some (Json.str (String.mk body), rem)
        | none => none
      else if c = 't' then
        match stripWord ['r', 'u', 'e'] rest with
        | some rem => some (Json.bool true, rem)
        | none => none
      else if c = 'f' then
        match stripWord ['a', 'l', 's', 'e'] rest with
        | some rem => some (Json.bool false, rem)
        | none => none
      else if c = 'n' then
        match stripWord ['u', 'l', 'l'] rest with
        | some rem => some (Json.null, rem)
        | none => none
      else if c.isDigit || c = '-' then
        let (tok, rem) := takeNum (c :: rest)
        some (Json.num (String.mk tok), rem)
      else none

/-- Parse the members of a JSON object after the opening brace (`first` is
true before any member has been read). -/
def parseObjFields (fuel : Nat) (cs : List Char) (first : Bool) :
    Option (Json × List Char) :=
  match fuel with
  | 0 => none
  | fuel + 1 =>
    match cs with
    | [] => none
    | c :: rest =>
      if c = rbraceChar && first then some (Json.obj [], rest)
      else
        if c = quoteChar then
          match parseStrBody (rest.length + 1) rest with
          | none => none
          | some (key, rem) =>
            match skipWs rem with
            | ':' :: rem2 =>
              match parseVal fuel rem2 with
              | none => none
              | some (v, rem3) =>
                match skipWs rem3 with
                | ',' :: rem4 =>
                  match parseObjFields fuel (skipWs rem4) false with
                  | some (Json.obj fs, rem5) =>
                    some (Json.obj ((String.mk key, v) :: fs), rem5)
                  | _ => none
                | d :: rem4 =>
                  if d = rbraceChar then
                    some (Json.obj [(String.mk key, v)], rem4)
                  else none
                | [] => none
            | _ => none
        else none

/-- Parse the elements of a JSON array after the opening bracket. -/
def parseArrElems (fuel : Nat) (cs : List Char) (first : Bool) :
    Option (Json × List Char) :=
  match fuel with
  | 0 => none
  | fuel + 1 =>
    match cs with
    | [] => none
    | c :: rest =>
      if c = ']' && first then some (Json.arr [], rest)
      else
        match parseVal fuel (c :: rest) with
        | none => none
        | some (v, rem) =>
          match skipWs rem with
          | ',' :: rem2 =>
            match parseArrElems fuel (skipWs rem2) false with
            | some (Json.arr es, rem3) => some (Json.arr (v :: es), rem3)
            | _ => none
          | d :: rem2 => if d = ']' then some (Json.arr [v], rem2) else none
          | [] => none

end

/-- Model of Python's `json.loads` on a character list: parse one JSON
value and require that only whitespace follows; any other input raises
`json.JSONDecodeError` (modelled as `Except.error ()`). -/
def json_loads_chars (cs : List Char) : Except Unit Json :=
  match parseVal (cs.length + 1) cs with
  | some (j, rem) => if skipWs rem = [] then Except.ok j else Except.error ()
  | none => Except.error ()

/-- Model of Python's `json.loads`. -/
def json_loads (s : String) : Except Unit Json :=
  json_loads_chars s.data

mutual

/-- Model of Python's `repr` on values produced by `json.loads` (only used
for the nested cases of `pyStr`; the client only ever prints string
chunks). -/
def pyRepr : Json → String
  | Json.null => "None"
  | Json.bool true => "True"
  | Json.bool false => "False"
  | Json.num raw => raw
  | Json.str s => String.singleton squoteChar ++ s ++ String.singleton squoteChar
  | Json.arr es => "[" ++ pyReprElems es ++ "]"
  | Json.obj fs =>
      String.singleton lbraceChar ++ pyReprFields fs ++ String.singleton rbraceChar

def pyReprElems : List Json → String
  | [] => ""
  | [j] => pyRepr j
  | j :: rest => pyRepr j ++ ", " ++ pyReprElems rest

def pyReprFields : List (String × Json) → String
  | [] => ""
  | [(k, v)] => String.singleton squoteChar ++ k ++ String.singleton squoteChar
      ++ ": " ++ pyRepr v
  | (k, v) :: rest => String.singleton squoteChar ++ k ++ String.singleton squoteChar
      ++ ": " ++ pyRepr v ++ ", " ++ pyReprFields rest

end

/-- Model of Python's `str()` as applied by `print` to a decoded JSON
value. -/
def pyStr : Json → String
  | Json.str s => s
  | Json.num raw => raw
  | Json.bool true => "True"
  | Json.bool false => "False"
  | Json.null => "None"
  | Json.arr es => pyRepr (Json.arr es)
  | Json.obj fs => pyRepr (Json.obj fs)

/-! ### Exceptions

The Python exceptions that can cross the boundaries the claims talk about.
`httpStatusError` is `httpx.HTTPStatusError` from `raise_for_status()` on a
non-2xx response; `connectError` is `httpx.ConnectError`; `jsonDecodeError`
is `json.JSONDecodeError`; `keyError` is `KeyError`; `streamError` stands
for the network errors that can escape `response.aiter_lines()` on the push
stream.  `detail` carries the human-readable `str(e)` text. -/
inductive PyExc where
  | httpStatusError (detail : String) : PyExc
  | connectError (detail : String) : PyExc
  | jsonDecodeError (detail : String) : PyExc
  | keyError (k : String) : PyExc
  | streamError (detail : String) : PyExc
deriving DecidableEq, Repr

/-- `type(e).__name__` for the modelled exceptions. -/
def excName : PyExc → String
  | PyExc.httpStatusError _ => "HTTPStatusError"
  | PyExc.connectError _ => "ConnectError"
  | PyExc.jsonDecodeError _ => "JSONDecodeError"
  | PyExc.keyError _ => "KeyError"
  | PyExc.streamError _ => "ReadError"

/-- `str(e)` for the modelled exceptions (Python renders `str(KeyError(k))`
as the repr of the key). -/
def excMsg : PyExc → String
  | PyExc.httpStatusError d => d
  | PyExc.connectError d => d
  | PyExc.jsonDecodeError d => d
  | PyExc.keyError k => String.singleton squoteChar ++ k ++ String.singleton squoteChar
  | PyExc.streamError d => d

instance {ε α : Type} [DecidableEq ε] [DecidableEq α] : DecidableEq (Except ε α) :=
  fun x y =>
    match x, y with
    | Except.ok a, Except.ok b => decidable_of_iff (a = b) (by simp)
    | Except.error e, Except.error f => decidable_of_iff (e = f) (by simp)
    | Except.ok _, Except.error _ => isFalse (by simp)
    | Except.error _, Except.ok _ => isFalse (by simp)

/-! ### Event stream reader (`stream_events`, src/main.py lines 42-53)

Each raw line of the push stream is processed as in the source: only lines
starting with `"data: "` are decoded (`json.loads(line[6:])` — an
unguarded call, so a malformed payload raises); the decoded value is
dispatched by a `match` whose mapping patterns require a dict with the
given `"type"` value; unmatched values fall through with no output.
The result of processing one line is the list of strings written to the
terminal, or the exception raised. -/

/-- Does the decoded value match the Python mapping pattern
`case ... "type": t ...` — i.e. is it a dict whose `"type"` key holds
exactly the string `t`? -/
def matchesType (j : Json) (t : String) : Bool :=
  match j with
  | Json.obj fields =>
    match lookupLast fields "type" with
    | some (Json.str s) => s = t
    | _ => false
  | _ => false

/-- `data: ` prefix marking payload lines. -/
def dataPrefix : String := "data: "

/-- One iteration of the `async for line` body of `stream_events`: the
terminal writes it performs, or the exception it raises.  The prefix test
is `line.startswith("data: ")` and the payload is `line[6:]` (Python
slices by characters, hence the `List Char` view). -/
def processLine (line : String) : Except PyExc (List String) :=
  if dataPrefix.data.isPrefixOf line.data then
    match json_loads_chars (line.data.drop 6) with
    | Except.error _ => Except.error (PyExc.jsonDecodeError "Expecting value")
    | Except.ok data =>
      if matchesType data "begin_message" then
        Except.ok [String.singleton nlChar ++ "Assistant: "]
      else if matchesType data "add_chunk" then
        match data with
        | Json.obj fields =>
          match lookupLast fields "chunk" with
          | some v => Except.ok [pyStr v]
          | none => Except.error (PyExc.keyError "chunk")
        | _ => Except.error (PyExc.keyError "chunk")
      else if matchesType data "end_message" then
        Except.ok [String.singleton nlChar ++ String.singleton nlChar]
      else Except.ok []
  else Except.ok []

/-- The reader's line loop over a finite prefix of the stream: the writes
performed in order, and the exception that terminated the loop, if any.
Processing stops at the first raising line — the exception propagates out
of `stream_events` and ends the task. -/
def processLines : List String → List String × Option PyExc
  | [] => ([], none)
  | line :: rest =>
    match processLine line with
    | Except.error e => ([], some e)
    | Except.ok outs =>
      let (outs2, err) := processLines rest
      (outs ++ outs2, err)

/-- Holds when a prefixed line's payload parses as JSON but matches none
of the three event patterns of the reader's `match` statement (the
silently-skipped case). -/
def unmatchedPayload (line : String) : Bool :=
  match json_loads_chars (line.data.drop 6) with
  | Except.ok j =>
    !(matchesType j "begin_message" || matchesType j "add_chunk"
      || matchesType j "end_message")
  | Except.error _ => false

/-! ### Input loop (`chat_loop`, src/main.py lines 56-90)

The loop repeatedly awaits a prompt line.  Each awaited prompt either
yields a line of text or raises (`KeyboardInterrupt` on Ctrl-C, `EOFError`
on Ctrl-D).  Handling a line may issue HTTP requests whose outcomes are
supplied by the environment attached to the event (success or the
exception the transport raised).  All actions are recorded in order:
prompts shown, requests issued, and strings printed. -/

/-- HTTP requests the loop and driver can issue. -/
inductive Request where
  | getState : Request
  | listAssistants : Request
  | setAssistant (name : String) : Request
  | sendMessage (content : String) : Request
deriving DecidableEq, Repr

/-- Observable actions of the client, in program order. -/
inductive DriverAction where
  | request (r : Request) : DriverAction
  | printOut (s : String) : DriverAction
  | prompt : DriverAction
  | startTasks : DriverAction
  | cancelStream : DriverAction
  | releaseStreamConn : DriverAction
  | awaitStream : DriverAction
  | closeClient : DriverAction
deriving DecidableEq, Repr

/-- Outcomes of the HTTP calls a single input line can trigger, as
supplied by the transport for that iteration. -/
structure NetEnv where
  assistantsResult : Except PyExc (List String)
  setAssistantResult : Except PyExc Unit
  sendMessageResult : Except PyExc Unit
deriving DecidableEq, Repr

/-- A transport environment in which every call succeeds (listing returns
the given assistant names). -/
def envOk (names : List String) : NetEnv :=
  { assistantsResult := Except.ok names
    setAssistantResult := Except.ok ()
    sendMessageResult := Except.ok () }

/-- What one `await session.prompt_async("You: ")` produces. -/
inductive PromptEvent where
  | line (s : String) (env : NetEnv) : PromptEvent
  | keyboardInterrupt : PromptEvent
  | eofError : PromptEvent
deriving DecidableEq, Repr

/-- Model of Python `print(s)`: the exact text written (the argument plus
the trailing newline `print` appends). -/
def pyPrint (s : String) : String := s ++ String.singleton nlChar

/-- Python `str.isspace` characters relevant to `strip()` (ASCII
whitespace). -/
def isPySpace (c : Char) : Bool :=
  c = ' ' || c = tabChar || c = nlChar || c = crChar
    || c = Char.ofNat 11 || c = Char.ofNat 12

/-- Model of Python `str.strip()` (no argument: strip whitespace from both
ends). -/
def pyStrip (s : String) : String :=
  String.mk (((s.data.dropWhile isPySpace).reverse.dropWhile isPySpace).reverse)

/-- Split a character list on every single space, as Python
`str.split(" ")` does (consecutive spaces yield empty fields). -/
def splitSpaces : List Char → List (List Char)
  | [] => [[]]
  | c :: rest =>
    if c = ' ' then [] :: splitSpaces rest
    else
      match splitSpaces rest with
      | g :: gs => (c :: g) :: gs
      | [] => [[c]]

/-- Model of Python `str.split(" ")`. -/
def pySplit (s : String) : List String := (splitSpaces s.data).map String.mk

/-- The one-line error report of the loop's `except Exception` handler:
`print(f"Error: \x7btype(e).__name__\x7d: \x7be\x7d")`. -/
def errorLine (e : PyExc) : String :=
  pyPrint ("Error: " ++ excName e ++ ": " ++ excMsg e)

/-- The body of one loop iteration after a line was read (strip, blank
check, slash-command dispatch, or `send_message`), as in the source:
the actions performed, then either the updated `assistant` variable or the
exception the body raised. -/
def lineBody (assistant : String) (s : String) (env : NetEnv) :
    List DriverAction × Except PyExc String :=
  let t := pyStrip s
  if t = "" then ([], Except.ok assistant)
  else if t.data.headD ' ' = '/' then
    let parts := pySplit t
    let command := parts.headD ""
    let args := parts.tail
    if command = "/assistants" then
      match env.assistantsResult with
      | Except.ok names =>
        ([DriverAction.request Request.listAssistants,
          DriverAction.printOut (pyPrint ("Available assistants: "
            ++ String.intercalate ", " names ++ String.singleton nlChar))],
         Except.ok assistant)
      | Except.error e =>
        ([DriverAction.request Request.listAssistants], Except.error e)
    else if command = "/assistant" then
      match args with
      | [] =>
        ([DriverAction.printOut (pyPrint ("Selected assistant: " ++ assistant
            ++ String.singleton nlChar))],
         Except.ok assistant)
      | a :: _ =>
        match env.setAssistantResult with
        | Except.ok _ =>
          ([DriverAction.request (Request.setAssistant a),
            DriverAction.printOut (pyPrint ("Selected assistant: " ++ a
              ++ String.singleton nlChar))],
           Except.ok a)
        | Except.error e =>
          ([DriverAction.request (Request.setAssistant a)], Except.error e)
    else
      ([DriverAction.printOut (pyPrint ("Unknown command"
          ++ String.singleton nlChar))],
       Except.ok assistant)
  else
    match env.sendMessageResult with
    | Except.ok _ => ([DriverAction.request (Request.sendMessage t)], Except.ok assistant)
    | Except.error e => ([DriverAction.request (Request.sendMessage t)], Except.error e)

/-- The `while True` loop of `chat_loop` over a finite script of prompt
outcomes: the actions in order and whether the loop returned (it returns
only by `break` on `EOFError`; a script exhausted without EOF leaves the
loop still awaiting the next prompt).  `KeyboardInterrupt` re-prompts;
any `Exception` from the body is caught, reported with one error line,
and the loop continues. -/
def chatLoop (assistant : String) : List PromptEvent → List DriverAction × Bool
  | [] => ([], false)
  | PromptEvent.keyboardInterrupt :: rest =>
    let (acts, fin) := chatLoop assistant rest
    (DriverAction.prompt :: acts, fin)
  | PromptEvent.eofError :: _ => ([DriverAction.prompt], true)
  | PromptEvent.line s env :: rest =>
    let (acts, res) := lineBody assistant s env
    match res with
    | Except.ok a2 =>
      let (acts2, fin) := chatLoop a2 rest
      (DriverAction.prompt :: acts ++ acts2, fin)
    | Except.error e =>
      let (acts2, fin) := chatLoop assistant rest
      (DriverAction.prompt :: acts ++ DriverAction.printOut (errorLine e) :: acts2, fin)

/-! ### Session driver (`main_async`, src/main.py lines 93-124) -/

/-- A transcript message from the `getState` response. -/
structure ChatMessage where
  role : String
  content : String
deriving DecidableEq, Repr

/-- The decoded `getState` response: the session's assistant and, when the
`"messages"` key is present, the transcript. -/
structure ChatState where
  assistant : String
  messages : Option (List ChatMessage)
deriving DecidableEq, Repr

/-- The transcript replay print for one message:
`print(f"\x7brole\x7d: \x7bmessage['content']\x7d\n")` with the role mapped to
`"Assistant"` for role `"assistant"` and `"You"` otherwise. -/
def transcriptPrint (m : ChatMessage) : DriverAction :=
  let role := if m.role = "assistant" then "Assistant" else "You"
  DriverAction.printOut (pyPrint (role ++ ": " ++ m.content ++ String.singleton nlChar))

/-- Status of the background `stream_task` at the moment the driver's
shutdown logic runs (or, for the terminated fates, at whatever earlier
point during the Running phase the reader task ended — the driver never
observes it before then).  `running` means the task is still suspended
awaiting the next stream line and is therefore cancellable; `failed e`
means the task already terminated with exception `e`; `completedEarly`
means the stream's line iterator ended and the task returned normally. -/
inductive StreamFate where
  | running : StreamFate
  | failed (e : PyExc) : StreamFate
  | completedEarly : StreamFate
deriving DecidableEq, Repr

/-- How `main_async` ends: a normal return, an exception propagating out,
or still suspended awaiting the chat loop (the input script ended without
end-of-input, so the driver has not reached its shutdown logic). -/
inductive DriverOutcome where
  | done : DriverOutcome
  | raised (e : PyExc) : DriverOutcome
  | stillRunning : DriverOutcome
deriving DecidableEq, Repr

/-- The shutdown sequence of `main_async`'s inner `finally`:
`stream_task.cancel()`, then `await stream_task` under
`except asyncio.CancelledError: pass`, then (outer `finally`)
`await client.aclose()`.  Cancelling a still-running task makes the
cancellation propagate through the reader's `async with`, releasing the
held stream connection, and the resulting `CancelledError` is suppressed.
Cancelling an already-terminated task is a no-op, and awaiting it re-raises
the exception it failed with — which is not a `CancelledError`, so it
escapes the inner handler; the client is still closed by the outer
`finally` and the exception propagates out of `main_async`. -/
def drainActions (fate : StreamFate) : List DriverAction × DriverOutcome :=
  match fate with
  | StreamFate.running =>
    ([DriverAction.cancelStream, DriverAction.releaseStreamConn,
      DriverAction.awaitStream, DriverAction.closeClient], DriverOutcome.done)
  | StreamFate.failed e =>
    ([DriverAction.cancelStream, DriverAction.awaitStream,
      DriverAction.closeClient], DriverOutcome.raised e)
  | StreamFate.completedEarly =>
    ([DriverAction.cancelStream, DriverAction.awaitStream,
      DriverAction.closeClient], DriverOutcome.done)

/-- The session driver `main_async`, as a trace over a finite input script.
`stateResult` is the outcome of `get_chat_state`; on failure the exception
propagates and the outer `finally` closes the client before anything else
is started.  On success the transcript (if present) is printed, both tasks
are started, and the driver awaits `chat_task` only: the chat loop's
actions all happen (interleaved with any reader output, which is modelled
separately by `processLines` since it never affects driver control flow)
regardless of `fate`, and the shutdown sequence runs only if the chat loop
returned. -/
def main_async (stateResult : Except PyExc ChatState)
    (events : List PromptEvent) (fate : StreamFate) :
    List DriverAction × DriverOutcome :=
  match stateResult with
  | Except.error e =>
    ([DriverAction.request Request.getState, DriverAction.closeClient],
     DriverOutcome.raised e)
  | Except.ok st =>
    let transcript := (st.messages.getD []).map transcriptPrint
    let (chatActs, finished) := chatLoop st.assistant events
    if finished then
      let (drain, outcome) := drainActions fate
      (DriverAction.request Request.getState :: transcript
        ++ DriverAction.startTasks :: chatActs ++ drain, outcome)
    else
      (DriverAction.request Request.getState :: transcript
        ++ DriverAction.startTasks :: chatActs, DriverOutcome.stillRunning)

/-! ## Claims -/

/-- Auxiliary: a list of the shape `pre ++ [z]` has last element `z` and
drops to `pre`. -/
theorem concat_last_drop {α : Type} (t pre : List α) (z : α)
    (ht : t = pre ++ [z]) : t.getLast? = some z ∧ t.dropLast = pre := by
  subst ht
  exact ⟨List.getLast?_concat _, List.dropLast_concat⟩

/-- Claim C1: for the stream event sequence `begin_message`,
`add_chunk("A")`, `add_chunk("B")`, `end_message` delivered as
`data: `-prefixed lines, the reader's terminal output is exactly a
newline, the label `Assistant: ` with no trailing newline, then `A`,
then `B` verbatim, then a closing newline and a blank line — no other
reader-driven output, and no error. -/
theorem stream_turn_output_exact :
    processLines
      ["data: \x7b\"type\": \"begin_message\"\x7d",
       "data: \x7b\"type\": \"add_chunk\", \"chunk\": \"A\"\x7d",
       "data: \x7b\"type\": \"add_chunk\", \"chunk\": \"B\"\x7d",
       "data: \x7b\"type\": \"end_message\"\x7d"]
      = (["\nAssistant: ", "A", "B", "\n\n"], none) := by decide

/-- Claim C2 counterexample: a prefixed line whose remainder is not valid
JSON makes the unguarded `json.loads` raise, terminating the reader's
loop — the following line's `begin_message` is never processed — and an
`add_chunk` payload missing its `chunk` field raises `KeyError`.  This
refutes the claim that such decode failures are swallowed silently and
processing continues. -/
theorem stream_malformed_payload_raises :
    processLine "data: \x7b" = Except.error (PyExc.jsonDecodeError "Expecting value")
    ∧ processLines ["data: \x7b", "data: \x7b\"type\": \"begin_message\"\x7d"]
        = ([], some (PyExc.jsonDecodeError "Expecting value"))
    ∧ processLine "data: \x7b\"type\": \"add_chunk\"\x7d"
        = Except.error (PyExc.keyError "chunk") := by decide

/-- Claim C2 amended: a prefixed line whose remainder is not valid JSON
raises a decode error that terminates the reader's line loop; no output
is produced for that line nor for any later line. -/
theorem stream_malformed_payload_terminates (line : String) (rest : List String)
    (hp : dataPrefix.data.isPrefixOf line.data = true)
    (hj : (json_loads_chars (line.data.drop 6)).isOk = false) :
    processLine line = Except.error (PyExc.jsonDecodeError "Expecting value")
    ∧ processLines (line :: rest)
        = ([], some (PyExc.jsonDecodeError "Expecting value")) := by
  have h1 : processLine line = Except.error (PyExc.jsonDecodeError "Expecting value") := by
    cases hjv : json_loads_chars (line.data.drop 6) with
    | error u => simp [processLine, hp, hjv]
    | ok j => rw [hjv] at hj; cases hj
  exact ⟨h1, by simp [processLines, h1]⟩

/-- Claim C2 amended, witness at a concrete malformed payload line. -/
theorem stream_malformed_payload_terminates_witness :
    processLine "data: not json"
        = Except.error (PyExc.jsonDecodeError "Expecting value")
    ∧ processLines ["data: not json", "data: \x7b\"type\": \"begin_message\"\x7d"]
        = ([], some (PyExc.jsonDecodeError "Expecting value")) :=
  stream_malformed_payload_terminates "data: not json"
    ["data: \x7b\"type\": \"begin_message\"\x7d"] (by decide) (by decide)

/-- Claim C6: a raw line without the `data: ` prefix, or a prefixed line
whose JSON payload matches none of the three event patterns, produces
zero terminal writes and raises nothing. -/
theorem stream_unmatched_line_ignored (line : String)
    (h : dataPrefix.data.isPrefixOf line.data = false
      ∨ unmatchedPayload line = true) :
    processLine line = Except.ok [] := by
  rcases h with h | h
  · simp [processLine, h]
  · unfold unmatchedPayload at h
    cases hj : json_loads_chars (line.data.drop 6) with
    | error u => rw [hj] at h; cases h
    | ok j =>
      rw [hj] at h
      simp only [Bool.not_eq_true', Bool.or_eq_false_iff] at h
      obtain ⟨⟨h1, h2⟩, h3⟩ := h
      by_cases hp : dataPrefix.data.isPrefixOf line.data
      · simp [processLine, hp, hj, h1, h2, h3]
      · simp [processLine, hp]

/-- Claim C6, witness: an unprefixed line, a prefixed object without a
`type` key, a prefixed object with an unknown `type`, and a prefixed
non-object payload are all ignored. -/
theorem stream_unmatched_line_ignored_witness :
    processLine "hello" = Except.ok []
    ∧ processLine "data: \x7b\"other\": 1\x7d" = Except.ok []
    ∧ processLine "data: \x7b\"type\": \"unknown\"\x7d" = Except.ok []
    ∧ processLine "data: [1, 2]" = Except.ok [] :=
  ⟨stream_unmatched_line_ignored "hello" (Or.inl (by decide)),
   stream_unmatched_line_ignored "data: \x7b\"other\": 1\x7d" (Or.inr (by decide)),
   stream_unmatched_line_ignored "data: \x7b\"type\": \"unknown\"\x7d"
     (Or.inr (by decide)),
   stream_unmatched_line_ignored "data: [1, 2]" (Or.inr (by decide))⟩

/-- Claim C7: after `/assistant abc` succeeds, an immediately following
bare `/assistant` displays `abc` — the locally held assistant variable is
updated with the remote call's success, and the whole exchange issues
exactly one request (`setAssistant`), never a state poll. -/
theorem assistant_cache_synchronous :
    chatLoop "orig"
        [PromptEvent.line "/assistant abc" (envOk []),
         PromptEvent.line "/assistant" (envOk [])]
      = ([DriverAction.prompt,
          DriverAction.request (Request.setAssistant "abc"),
          DriverAction.printOut "Selected assistant: abc\n\n",
          DriverAction.prompt,
          DriverAction.printOut "Selected assistant: abc\n\n"], false) := by decide

/-- Claim C5: a line whose handling raises is caught at the loop
boundary: the loop prints exactly one error line and continues with the
next prompt iteration (the model is a total function, so no error ever
escapes the loop); in particular a non-2xx `sendMessage` issues the
request exactly once — no retry — followed by exactly one error line. -/
theorem chat_loop_error_caught (assistant s : String) (env : NetEnv) (e : PyExc)
    (rest : List PromptEvent)
    (hbody : (lineBody assistant s env).2 = Except.error e) :
    chatLoop assistant (PromptEvent.line s env :: rest)
      = (DriverAction.prompt :: (lineBody assistant s env).1
          ++ DriverAction.printOut (errorLine e) :: (chatLoop assistant rest).1,
         (chatLoop assistant rest).2)
    ∧ (pyStrip s ≠ "" → (pyStrip s).data.headD ' ' ≠ '/' →
        env.sendMessageResult = Except.error e →
        (lineBody assistant s env).1
          = [DriverAction.request (Request.sendMessage (pyStrip s))]) := by
  constructor
  · rcases hlb : lineBody assistant s env with ⟨acts, res⟩
    rw [hlb] at hbody
    simp only at hbody
    subst hbody
    rcases hrest : chatLoop assistant rest with ⟨acts2, fin⟩
    simp [chatLoop, hlb, hrest]
  · intro h1 h2 h3
    rw [List.headD_eq_head?_getD] at h2
    simp [lineBody, h1, h2, h3]

/-- Claim C5, witness: a `sendMessage` rejected with a 500 status yields
one request, one error line, and the loop reaches the next prompt. -/
theorem chat_loop_error_caught_witness :
    chatLoop "a"
        [PromptEvent.line "hello"
          { assistantsResult := Except.ok []
            setAssistantResult := Except.ok ()
            sendMessageResult :=
              Except.error (PyExc.httpStatusError "Server error 500") },
         PromptEvent.eofError]
      = ([DriverAction.prompt,
          DriverAction.request (Request.sendMessage "hello"),
          DriverAction.printOut "Error: HTTPStatusError: Server error 500\n",
          DriverAction.prompt], true) := by
  have h := chat_loop_error_caught "a" "hello"
    { assistantsResult := Except.ok []
      setAssistantResult := Except.ok ()
      sendMessageResult := Except.error (PyExc.httpStatusError "Server error 500") }
    (PyExc.httpStatusError "Server error 500") [PromptEvent.eofError] (by decide)
  rw [h.1, h.2 (by decide) (by decide) (by decide)]
  decide

/-- Claim C3 counterexample: the driver awaits only the chat task, so a
background reader that has already failed with a stream error does not
stop the Running state — the driver goes on prompting and sending the
next message, performs no cancellation, and does not proceed to Draining
(outcome still running), refuting the claim that unexpected reader
termination drives shutdown. -/
theorem driver_ignores_reader_failure :
    main_async (Except.ok { assistant := "a", messages := none })
        [PromptEvent.line "hello" (envOk [])]
        (StreamFate.failed (PyExc.streamError "connection lost"))
      = ([DriverAction.request Request.getState, DriverAction.startTasks,
          DriverAction.prompt, DriverAction.request (Request.sendMessage "hello")],
         DriverOutcome.stillRunning)
    ∧ DriverAction.cancelStream
        ∉ [DriverAction.request Request.getState, DriverAction.startTasks,
           DriverAction.prompt, DriverAction.request (Request.sendMessage "hello")] := by
  decide

/-- Claim C3 amended: the driver never observes reader termination while
Running; it proceeds to Draining only when the input loop returns
end-of-input.  A reader that already terminated with a non-cancellation
error surfaces that error only in Draining, when the driver awaits the
task; the error then propagates out of the driver after the client is
closed. -/
theorem driver_drains_only_after_input_ends (st : ChatState)
    (events : List PromptEvent) (e : PyExc)
    (hfin : (chatLoop st.assistant events).2 = true) :
    main_async (Except.ok st) events (StreamFate.failed e)
      = (DriverAction.request Request.getState
          :: (st.messages.getD []).map transcriptPrint
          ++ DriverAction.startTasks :: (chatLoop st.assistant events).1
          ++ [DriverAction.cancelStream, DriverAction.awaitStream,
              DriverAction.closeClient],
         DriverOutcome.raised e) := by
  rcases hc : chatLoop st.assistant events with ⟨acts, fin⟩
  rw [hc] at hfin
  simp only at hfin
  subst hfin
  simp [main_async, hc, drainActions]

/-- Claim C3 amended, witness: reader already failed, input script ends
immediately; the drain runs after end-of-input and re-raises the stream
error. -/
theorem driver_drains_only_after_input_ends_witness :
    main_async (Except.ok { assistant := "a", messages := none })
        [PromptEvent.eofError] (StreamFate.failed (PyExc.streamError "lost"))
      = ([DriverAction.request Request.getState, DriverAction.startTasks,
          DriverAction.prompt, DriverAction.cancelStream,
          DriverAction.awaitStream, DriverAction.closeClient],
         DriverOutcome.raised (PyExc.streamError "lost")) := by
  have h := driver_drains_only_after_input_ends
    { assistant := "a", messages := none } [PromptEvent.eofError]
    (PyExc.streamError "lost") (by decide)
  rw [h]
  decide

/-- Claim C4: when the input loop returns end-of-input, the driver
cancels the still-running reader task, the cancellation releases the held
stream connection, the driver awaits the task and suppresses the
cancellation outcome (the driver completes normally — nothing is
surfaced as an error), and the connection release precedes the client
close. -/
theorem driver_clean_cancellation (st : ChatState) (events : List PromptEvent)
    (hfin : (chatLoop st.assistant events).2 = true) :
    main_async (Except.ok st) events StreamFate.running
      = (DriverAction.request Request.getState
          :: (st.messages.getD []).map transcriptPrint
          ++ DriverAction.startTasks :: (chatLoop st.assistant events).1
          ++ [DriverAction.cancelStream, DriverAction.releaseStreamConn,
              DriverAction.awaitStream, DriverAction.closeClient],
         DriverOutcome.done) := by
  rcases hc : chatLoop st.assistant events with ⟨acts, fin⟩
  rw [hc] at hfin
  simp only at hfin
  subst hfin
  simp [main_async, hc, drainActions]

/-- Claim C4, witness: end-of-input on the first prompt. -/
theorem driver_clean_cancellation_witness :
    main_async (Except.ok { assistant := "a", messages := none })
        [PromptEvent.eofError] StreamFate.running
      = ([DriverAction.request Request.getState, DriverAction.startTasks,
          DriverAction.prompt, DriverAction.cancelStream,
          DriverAction.releaseStreamConn, DriverAction.awaitStream,
          DriverAction.closeClient],
         DriverOutcome.done) := by
  have h := driver_clean_cancellation
    { assistant := "a", messages := none } [PromptEvent.eofError] (by decide)
  rw [h]
  decide

/-- Claim C8: when the initial `getState` response contains a transcript,
the driver prints every transcript entry in order, right after the state
fetch and before the tasks (and hence before any prompt) are started;
the transcript replay itself contains no prompt action. -/
theorem transcript_replayed_before_prompt (assistant : String)
    (msgs : List ChatMessage) (events : List PromptEvent) (fate : StreamFate) :
    (∃ rest,
      (main_async (Except.ok { assistant := assistant, messages := some msgs })
          events fate).1
        = DriverAction.request Request.getState :: msgs.map transcriptPrint
          ++ DriverAction.startTasks :: rest)
    ∧ DriverAction.prompt ∉ msgs.map transcriptPrint := by
  constructor
  · rcases hc : chatLoop assistant events with ⟨acts, fin⟩
    cases fin
    · exact ⟨acts, by simp [main_async, hc]⟩
    · exact ⟨acts ++ (drainActions fate).1, by simp [main_async, hc]⟩
  · intro hmem
    rw [List.mem_map] at hmem
    obtain ⟨m, _, hm⟩ := hmem
    simp [transcriptPrint] at hm

/-- Claim C9: if the initial state fetch fails, startup aborts entirely:
the only actions are the failed request and the client close in the
outer cleanup — no tasks are started and no prompt is ever shown — and
the exception propagates out of the driver (so the process, which runs
the driver under `asyncio.run`, terminates with a non-zero exit). -/
theorem startup_failure_fatal (e : PyExc) (events : List PromptEvent)
    (fate : StreamFate) :
    main_async (Except.error e) events fate
      = ([DriverAction.request Request.getState, DriverAction.closeClient],
         DriverOutcome.raised e) := rfl

/-- Claim C10: on every exit path of the driver — fatal `getState`
failure, clean shutdown, early reader completion, or a reader error
re-raised at drain — the last action is closing the HTTP client, and
whenever the tasks were started, the stream task is cancelled and awaited
strictly before that close. -/
theorem client_always_closed (sr : Except PyExc ChatState)
    (events : List PromptEvent) (fate : StreamFate)
    (h : (main_async sr events fate).2 ≠ DriverOutcome.stillRunning) :
    ((main_async sr events fate).1).getLast? = some DriverAction.closeClient
    ∧ (DriverAction.startTasks ∈ (main_async sr events fate).1 →
        DriverAction.cancelStream ∈ ((main_async sr events fate).1).dropLast
        ∧ DriverAction.awaitStream ∈ ((main_async sr events fate).1).dropLast) := by
  cases sr with
  | error e =>
    refine ⟨by simp [main_async], ?_⟩
    intro hmem
    simp [main_async] at hmem
  | ok st =>
    rcases hc : chatLoop st.assistant events with ⟨acts, fin⟩
    cases fin with
    | false => simp [main_async, hc] at h
    | true =>
      cases fate with
      | running =>
        obtain ⟨hl, hd⟩ := concat_last_drop
          (main_async (Except.ok st) events StreamFate.running).1
          (DriverAction.request Request.getState
            :: (st.messages.getD []).map transcriptPrint
            ++ DriverAction.startTasks :: acts
            ++ [DriverAction.cancelStream, DriverAction.releaseStreamConn,
                DriverAction.awaitStream])
          DriverAction.closeClient (by simp [main_async, hc, drainActions])
        refine ⟨hl, fun _ => ?_⟩
        rw [hd]
        constructor <;> simp
      | failed e =>
        obtain ⟨hl, hd⟩ := concat_last_drop
          (main_async (Except.ok st) events (StreamFate.failed e)).1
          (DriverAction.request Request.getState
            :: (st.messages.getD []).map transcriptPrint
            ++ DriverAction.startTasks :: acts
            ++ [DriverAction.cancelStream, DriverAction.awaitStream])
          DriverAction.closeClient (by simp [main_async, hc, drainActions])
        refine ⟨hl, fun _ => ?_⟩
        rw [hd]
        constructor <;> simp
      | completedEarly =>
        obtain ⟨hl, hd⟩ := concat_last_drop
          (main_async (Except.ok st) events StreamFate.completedEarly).1
          (DriverAction.request Request.getState
            :: (st.messages.getD []).map transcriptPrint
            ++ DriverAction.startTasks :: acts
            ++ [DriverAction.cancelStream, DriverAction.awaitStream])
          DriverAction.closeClient (by simp [main_async, hc, drainActions])
        refine ⟨hl, fun _ => ?_⟩
        rw [hd]
        constructor <;> simp

/-- Claim C10, witness: clean shutdown after immediate end-of-input. -/
theorem client_always_closed_witness :
    ((main_async (Except.ok { assistant := "a", messages := none })
        [PromptEvent.eofError] StreamFate.running).1).getLast?
        = some DriverAction.closeClient
    ∧ (DriverAction.startTasks
          ∈ (main_async (Except.ok { assistant := "a", messages := none })
              [PromptEvent.eofError] StreamFate.running).1 →
        DriverAction.cancelStream
            ∈ ((main_async (Except.ok { assistant := "a", messages := none })
                [PromptEvent.eofError] StreamFate.running).1).dropLast
        ∧ DriverAction.awaitStream
            ∈ ((main_async (Except.ok { assistant := "a", messages := none })
                [PromptEvent.eofError] StreamFate.running).1).dropLast) :=
  client_always_closed (Except.ok { assistant := "a", messages := none })
    [PromptEvent.eofError] StreamFate.running (by decide)

end Akson
